import Mathlib

/-!
Verification of the Diffuse renderer core (GraphicsDevice.cpp) against its
natural-language specification.  The definitions below are a shallow
embedding of the source: each mirrors a function or code block of
src/src/Graphics/GraphicsDevice.cpp (line references in the doc comments).
Machine integers are modelled as Nat/Int; Vulkan handles are abstracted to
indices; command recording is modelled as lists of command descriptions in
the order the source records them.
-/

namespace Diffuse

/-! ## Data model (spec section 3; types consumed by GraphicsDevice.cpp) -/

/-- A glTF primitive: `{ first_index, index_count, material_index }`,
with `material_index = -1` meaning "no material". -/
structure Primitive where
  first_index : Nat
  index_count : Nat
  material_index : Int
deriving DecidableEq

/-- A scene-graph node: an optional mesh (an ordered list of primitives)
and an ordered list of child nodes. -/
inductive Node where
  | mk (mesh : Option (List Primitive)) (children : List Node)

/-- The optional mesh of a node. -/
def Node.mesh : Node → Option (List Primitive)
  | .mk m _ => m

/-- The children of a node. -/
def Node.children : Node → List Node
  | .mk _ c => c

/-- Whether a node owns a mesh (the `if (node->mesh)` test of the mesh-count
loop in `GraphicsDevice::Setup`, lines 314-318). -/
def Node.hasMesh : Node → Bool
  | .mk m _ => m.isSome

/-- A material: the five texture slots referenced by the descriptor writes
in `GraphicsDevice::Setup` (lines 385-391).  Texture handles are indices. -/
structure Material where
  baseColorTexture : Nat
  metallicRoughnessTexture : Nat
  normalTexture : Nat
  occlusionTexture : Nat
  emissiveTexture : Nat

/-! ## Material index selection (GraphicsDevice::DrawNode, line 1203) -/

/-- The material index the draw uses for a primitive:
`uint32_t index = primitive->material_index > -1 ? primitive->material_index : 0;`
(GraphicsDevice.cpp line 1203). -/
def materialIndexUsed (material_index : Int) : Nat :=
  if material_index > -1 then material_index.toNat else 0

/-- The material looked up by `m_models[0]->GetMaterial(index)` in
`DrawNode` (line 1205): plain indexing of the ordered materials list,
`none` when the index is out of range. -/
def boundMaterial {α : Type} (materials : List α) (material_index : Int) : Option α :=
  materials.get? (materialIndexUsed material_index)

/-! ## Command recording (GraphicsDevice::RecordCommandBuffer lines 1143-1198,
GraphicsDevice::DrawNode lines 1200-1212) -/

/-- A command recorded into the frame command buffer, in source order. -/
inductive RecCmd where
  | beginCmd
  | beginRenderPass
  | setViewport
  | setScissor
  | bindPipelineScene
  | bindPipelineSkybox
  | bindSkyboxDescriptorSet
  | bindVertexBuffer (model : Nat)
  | bindIndexBuffer (model : Nat)
  | bindMaterialSet (idx : Nat)
  | drawIndexed (indexCount instanceCount firstIndex vertexOffset firstInstance : Nat)
  | endRenderPass
  | endCmd
deriving DecidableEq

/-- The two commands `DrawNode` records for one primitive (lines 1203-1206):
bind the descriptor set of material `materialIndexUsed`, then
`vkCmdDrawIndexed(cb, index_count, 1, first_index, 0, 0)`. -/
def primCmds (p : Primitive) : List RecCmd :=
  [.bindMaterialSet (materialIndexUsed p.material_index),
   .drawIndexed p.index_count 1 p.first_index 0 0]

mutual

/-- `GraphicsDevice::DrawNode` (lines 1200-1212): if the node has a mesh,
record bind+draw for each primitive in order; then recurse into the
children in order. -/
def drawNode : Node → List RecCmd
  | .mk mesh children =>
    (match mesh with
     | some prims => prims.flatMap primCmds
     | none => []) ++ drawNodes children

/-- The commands recorded by calling `DrawNode` on each node of a list in
order (the loop over `GetNodes()` in `RecordCommandBuffer`, lines 1188-1190). -/
def drawNodes : List Node → List RecCmd
  | [] => []
  | n :: ns => drawNode n ++ drawNodes ns

end

mutual

/-- The pre-order primitive list of a node: its own mesh's primitives in
order, then the primitives of its children, recursively. -/
def preorder : Node → List Primitive
  | .mk mesh children =>
    (match mesh with
     | some prims => prims
     | none => []) ++ preorderList children

/-- The pre-order primitive list of a list of root nodes. -/
def preorderList : List Node → List Primitive
  | [] => []
  | n :: ns => preorder n ++ preorderList ns

end

/-- `GraphicsDevice::RecordCommandBuffer` (lines 1143-1198): begin the
command buffer and render pass, set viewport and scissor, bind the scene
pipeline and model 0's vertex and index buffers, draw every root node,
end the pass and the buffer.  There is no skybox branch and no runtime
path selection in the source. -/
def recordCommandBuffer (roots : List Node) : List RecCmd :=
  [RecCmd.beginCmd, RecCmd.beginRenderPass, RecCmd.setViewport, RecCmd.setScissor,
   RecCmd.bindPipelineScene, RecCmd.bindVertexBuffer 0, RecCmd.bindIndexBuffer 0]
  ++ drawNodes roots ++ [RecCmd.endRenderPass, RecCmd.endCmd]

/-- Extracts the argument tuple of a `drawIndexed` command. -/
def drawArgsOf : RecCmd → Option (Nat × Nat × Nat × Nat × Nat)
  | .drawIndexed a b c d e => some (a, b, c, d, e)
  | _ => none

/-- Keeps only the material-set binds and draws of a command stream. -/
def bindOrDraw : RecCmd → Option RecCmd
  | .bindMaterialSet i => some (.bindMaterialSet i)
  | .drawIndexed a b c d e => some (.drawIndexed a b c d e)
  | _ => none

/-- A small concrete scene: one root with one 3-index primitive and one
childless, meshless child. -/
def sampleRoots : List Node :=
  [Node.mk (some [⟨0, 3, 0⟩]) [Node.mk none []]]

/-! ## Scene descriptor pool sizing (GraphicsDevice::Setup, lines 306-332) -/

/-- The three capacities of the scene descriptor pool. -/
structure DescriptorPool where
  maxSets : Nat
  combinedImageSampler : Nat
  uniformBuffer : Nat

/-- The scene descriptor pool created in `GraphicsDevice::Setup`
(lines 306-332): `imageSamplerCount` accumulates 5 per material,
`materialCount` 1 per material, `meshCount` 1 per linear node owning a
mesh; pool sizes are `imageSamplerCount * imageCount + 2` combined image
samplers, `(4 + meshCount) * imageCount` uniform buffers, and
`(2 + meshCount + materialCount) * imageCount` max sets. -/
def sceneDescriptorPool (materials : List Material) (linearNodes : List Node)
    (imageCount : Nat) : DescriptorPool :=
  let imageSamplerCount := materials.foldl (fun acc _ => acc + 5) 0
  let materialCount := materials.foldl (fun acc _ => acc + 1) 0
  let meshCount := linearNodes.foldl (fun acc n => if n.hasMesh then acc + 1 else acc) 0
  { combinedImageSampler := imageSamplerCount * imageCount + 2
    uniformBuffer := (4 + meshCount) * imageCount
    maxSets := (2 + meshCount + materialCount) * imageCount }

/-! ## Material descriptor-set writes (GraphicsDevice::Setup, lines 368-438) -/

/-- What a descriptor write points at: a uniform buffer of a given frame
slot, or one of the material's five texture slots (0 = baseColor,
1 = metallicRoughness, 2 = normal, 3 = occlusion, 4 = emissive). -/
inductive WriteSource where
  | ubo (slot : Nat)
  | image (texSlot : Nat)
deriving DecidableEq

/-- One `VkWriteDescriptorSet` of the Setup loop: destination material,
destination binding, and the referenced resource. -/
structure DescWrite where
  dstMaterial : Nat
  dstBinding : Nat
  source : WriteSource
deriving DecidableEq

/-- The six descriptor writes issued for material `i` in `Setup`
(lines 379-437): binding 0 is `m_ubo.uniformBuffers[0]` (frame slot 0,
line 380), bindings 1..5 are the material's five textures. -/
def materialDescriptorWrites (i : Nat) : List DescWrite :=
  [⟨i, 0, .ubo 0⟩, ⟨i, 1, .image 0⟩, ⟨i, 2, .image 1⟩,
   ⟨i, 3, .image 2⟩, ⟨i, 4, .image 3⟩, ⟨i, 5, .image 4⟩]

/-- All material descriptor writes of `Setup` for a model with `M`
materials (the loop at lines 368-438). -/
def setupDescriptorWrites (M : Nat) : List DescWrite :=
  (List.range M).flatMap materialDescriptorWrites

/-- Modelled from the spec: `render_ahead` lives in GraphicsDevice.hpp,
which is not among the repository sources; spec section 4.5 fixes
`render_ahead = 2`. -/
def renderAhead : Nat := 2

/-- `GraphicsDevice::CreateUniformBuffer` (lines 922-934) resizes the
uniform-buffer vectors to `m_render_ahead`: one buffer per frame slot. -/
def uniformBufferCount : Nat := renderAhead

/-! ## Environment-map mip generation (GraphicsDevice::SetupSkybox,
lines 798-880) -/

/-- Image layouts appearing in the mip-generation barriers. -/
inductive Layout where
  | undefined
  | general
  | transferSrc
  | transferDst
  | shaderRead
deriving DecidableEq

/-- A command recorded during mip generation: an image memory barrier
(subresource base mip level, level count, old and new layout) or a blit
between two mip levels with explicit extents and layer count. -/
inductive MipCmd where
  | barrier (baseMipLevel levelCount : Nat) (oldLayout newLayout : Layout)
  | blit (srcLevel dstLevel srcWidth srcHeight dstWidth dstHeight layerCount : Nat)
deriving DecidableEq

/-- One unrolling step of the mip loop of `SetupSkybox` (lines 802-855):
the pre-blit barrier uses `baseMipLevel = GetMipLevels()` (line 817) and
`levelCount = 1`, UNDEFINED to TRANSFER_DST; the blit copies level-1 to
level at half resolution over all layers; the post-blit barrier again
uses `baseMipLevel = GetMipLevels()` (line 848), TRANSFER_DST to
TRANSFER_SRC.  `fuel` counts the remaining iterations
(`mipLevels - level`). -/
def mipIter (mipLevels layers : Nat) : Nat → Nat → Nat → Nat → List MipCmd
  | 0, _, _, _ => []
  | fuel + 1, level, prevW, prevH =>
    [MipCmd.barrier mipLevels 1 .undefined .transferDst,
     MipCmd.blit (level - 1) level prevW prevH (prevW / 2) (prevH / 2) layers,
     MipCmd.barrier mipLevels 1 .transferDst .transferSrc]
    ++ mipIter mipLevels layers fuel (level + 1) (prevW / 2) (prevH / 2)

/-- The full mip-generation command stream (lines 798-880): the loop for
levels `1 .. mipLevels-1`, then the final "whole chain" barrier whose
subresource range is left zero-initialized (lines 861-876: the
`baseMipLevel`/`levelCount` assignments are commented out, so
`levelCount = 0`), TRANSFER_DST to SHADER_READ_ONLY. -/
def genMipCommands (width height mipLevels layers : Nat) : List MipCmd :=
  mipIter mipLevels layers (mipLevels - 1) 1 width height
  ++ [MipCmd.barrier 0 0 .transferDst .shaderRead]

/-- Floor of the base-2 logarithm by repeated halving; the first
argument is fuel bounding the recursion depth. -/
def log2floorAux : Nat → Nat → Nat
  | 0, _ => 0
  | fuel + 1, n => if n ≤ 1 then 0 else log2floorAux fuel (n / 2) + 1

/-- `⌊log2 n⌋` (0 at 0 and 1); agrees with `Nat.log2`
(`log2floor_eq_log2` below). -/
def log2floor (n : Nat) : Nat := log2floorAux n n

/-- Modelled from the spec: the `Texture2D(w, h, layers, format, levels,
usage)` constructor body is not among the repository sources (only
Texture2D.hpp is); spec section 4.3(c) says that when `levels = 0` the
full mip count `⌊log2 (max w h)⌋ + 1` is computed. -/
def textureMipLevels (width height levels : Nat) : Nat :=
  if levels = 0 then log2floor (max width height) + 1 else levels

/-! ## Equirect-to-cube compute dispatch (GraphicsDevice::SetupSkybox,
lines 770-773) -/

/-- The environment cube side size: `uint32_t envmap_size = 1024;`
(line 454). -/
def envmapSize : Nat := 1024

/-- The workgroup counts of the equirect-to-cube dispatch:
`vkCmdDispatch(copy_cmd, envmap_size / 32, envmap_size / 32, 6)`
(line 773) — integer (truncating) division. -/
def dispatchGroups (side : Nat) : Nat × Nat × Nat :=
  (side / 32, side / 32, 6)

/-! ## The per-frame loop (GraphicsDevice::Draw, lines 1061-1141,
CleanUpSwapchain lines 1214-1222, RecreateSwapchain lines 1261-1304) -/

/-- Result of `vkAcquireNextImageKHR` as handled by `Draw` (other error
codes abort in debug builds and are outside the model). -/
inductive AcquireResult where
  | success
  | suboptimal
  | outOfDate
deriving DecidableEq

/-- Result of `vkQueuePresentKHR` as handled by `Draw`. -/
inductive PresentResult where
  | success
  | suboptimal
  | outOfDate
deriving DecidableEq

/-- The external inputs of one `Draw` call. -/
structure DrawInput where
  acquireResult : AcquireResult
  presentResult : PresentResult

/-- The mutable device state `Draw` touches: `m_current_frame_index`,
`m_framebuffer_resized`, and the signaled-state of each slot's in-flight
fence (`m_wait_fences`; `false` after a reset until the submitted work
completes). -/
structure GDState where
  currentFrame : Nat
  framebufferResized : Bool
  fenceSignaled : Nat → Bool

/-- Observable steps of one `Draw` call, in program order. -/
inductive Ev where
  | waitFence (slot : Nat)
  | acquire (slot : Nat)
  | writeUniform (slot : Nat)
  | resetFence (slot : Nat)
  | resetCommandBuffer (slot : Nat)
  | record (slot : Nat)
  | submit (slot : Nat)
  | present (slot : Nat)
  | waitIdle
  | destroyDepthView
  | destroyDepthImage
  | freeDepthMemory
  | destroyFramebuffers
  | destroySwapchain
  | createSwapchain
  | createDepthImage
  | createDepthView
  | createFramebuffers
deriving DecidableEq

/-- `GraphicsDevice::CleanUpSwapchain` (lines 1214-1222): destroy the
depth view, depth image and its memory, every framebuffer, and the
swapchain.  No device-idle wait and no recreation. -/
def cleanupSwapchainEvents : List Ev :=
  [.destroyDepthView, .destroyDepthImage, .freeDepthMemory,
   .destroyFramebuffers, .destroySwapchain]

/-- `GraphicsDevice::RecreateSwapchain` (lines 1261-1304): wait for
device idle, run `CleanUpSwapchain`, then recreate the swapchain, the
depth image and view, and the framebuffers. -/
def recreateSwapchainEvents : List Ev :=
  Ev.waitIdle :: cleanupSwapchainEvents
  ++ [.createSwapchain, .createDepthImage, .createDepthView, .createFramebuffers]

/-- The present-result test at line 1133:
`result == VK_ERROR_OUT_OF_DATE_KHR || result == VK_SUBOPTIMAL_KHR || m_framebuffer_resized`. -/
def presentTriggersCleanup (r : PresentResult) (resized : Bool) : Bool :=
  r == PresentResult.outOfDate || r == PresentResult.suboptimal || resized

/-- `GraphicsDevice::Draw` (lines 1061-1141).  Wait on the current slot's
fence; if the resize flag is set, recreate the swapchain, clear the flag
and return; acquire, and on OUT_OF_DATE recreate, clear the flag and
return; otherwise write the UBO of the current slot, reset the slot's
fence and command buffer, record, submit with that fence, present, on
present OUT_OF_DATE / SUBOPTIMAL / resize flag run `CleanUpSwapchain`
(destroy only), and finally advance the frame index modulo
`renderAhead`.  Returns the new state and the ordered event trace. -/
def draw (s : GDState) (inp : DrawInput) : GDState × List Ev :=
  let i := s.currentFrame
  if s.framebufferResized then
    ({ s with framebufferResized := false }, Ev.waitFence i :: recreateSwapchainEvents)
  else if inp.acquireResult = AcquireResult.outOfDate then
    ({ s with framebufferResized := false },
     Ev.waitFence i :: Ev.acquire i :: recreateSwapchainEvents)
  else
    let doCleanup := presentTriggersCleanup inp.presentResult s.framebufferResized
    ({ currentFrame := (i + 1) % renderAhead
       framebufferResized := if doCleanup then false else s.framebufferResized
       fenceSignaled := fun j => if j = i then false else s.fenceSignaled j },
     [Ev.waitFence i, Ev.acquire i, Ev.writeUniform i, Ev.resetFence i,
      Ev.resetCommandBuffer i, Ev.record i, Ev.submit i, Ev.present i]
     ++ (if doCleanup then cleanupSwapchainEvents else []))

/-- A representative device state: frame slot 0, resize flag clear, all
fences signaled (their creation state, line 182). -/
def initialState : GDState :=
  { currentFrame := 0, framebufferResized := false, fenceSignaled := fun _ => true }

/-- A state with the resize flag set, used to exercise the early-return
path. -/
def resizedState : GDState :=
  { currentFrame := 0, framebufferResized := true, fenceSignaled := fun _ => true }

/-! ## Helper lemmas -/

theorem foldl_add_const (l : List Material) (k a : Nat) :
    l.foldl (fun acc _ => acc + k) a = a + k * l.length := by
  induction l generalizing a with
  | nil => simp
  | cons _ t ih => simp [ih]; ring

theorem foldl_count_mesh (l : List Node) (a : Nat) :
    l.foldl (fun acc n => if n.hasMesh then acc + 1 else acc) a
      = a + l.countP Node.hasMesh := by
  induction l generalizing a with
  | nil => simp
  | cons n t ih =>
    by_cases h : n.hasMesh
    · simp [h, ih, List.countP_cons]
      omega
    · simp [h, ih, List.countP_cons]

theorem log2floorAux_eq_log2 (fuel n : Nat) (h : n ≤ fuel) :
    log2floorAux fuel n = Nat.log2 n := by
  induction fuel generalizing n with
  | zero =>
    have hn : n = 0 := by omega
    subst hn
    conv_rhs => rw [Nat.log2]
    simp [log2floorAux]
  | succ fuel ih =>
    rw [log2floorAux]
    by_cases h1 : n ≤ 1
    · rw [if_pos h1]
      conv_rhs => rw [Nat.log2]
      have h2 : ¬ n ≥ 2 := by omega
      rw [if_neg h2]
    · rw [if_neg h1, ih (n / 2) (by omega)]
      conv_rhs => rw [Nat.log2]
      have h2 : n ≥ 2 := by omega
      rw [if_pos h2]

theorem log2floor_eq_log2 (n : Nat) : log2floor n = Nat.log2 n :=
  log2floorAux_eq_log2 n n (Nat.le_refl n)

mutual

theorem drawNode_eq (n : Node) : drawNode n = (preorder n).flatMap primCmds := by
  cases n with
  | mk mesh children =>
    rw [drawNode.eq_def, preorder.eq_def]
    cases mesh <;> simp [drawNodes_eq]

theorem drawNodes_eq (ns : List Node) :
    drawNodes ns = (preorderList ns).flatMap primCmds := by
  cases ns with
  | nil => simp [drawNodes, preorderList]
  | cons n ns =>
    rw [drawNodes, preorderList, drawNode_eq n, drawNodes_eq ns]
    simp

end

theorem filterMap_drawArgs_prims (ps : List Primitive) :
    (ps.flatMap primCmds).filterMap drawArgsOf
      = ps.map (fun p => (p.index_count, 1, p.first_index, 0, 0)) := by
  induction ps with
  | nil => rfl
  | cons p t ih => simp [primCmds, drawArgsOf, List.filterMap_cons, ih]

theorem filterMap_bindOrDraw_prims (ps : List Primitive) :
    (ps.flatMap primCmds).filterMap bindOrDraw = ps.flatMap primCmds := by
  induction ps with
  | nil => rfl
  | cons p t ih => simp [primCmds, bindOrDraw, List.filterMap_cons, ih]

/-! ## C1 — default-material fallback -/

/-- C1 counterexample: with a single material (so `materials.len = 1`)
and a primitive whose `material_index = 1 ≥ materials.len`, the index
the draw uses is 1 and the lookup is out of range — the bound set is not
`materials[0]`. -/
theorem materialIndex_fallback_fails :
    (1 : Int) ≥ (([42] : List Nat).length : Int)
    ∧ materialIndexUsed 1 = 1
    ∧ boundMaterial ([42] : List Nat) 1 = none
    ∧ boundMaterial ([42] : List Nat) 1 ≠ ([42] : List Nat).head? := by
  decide

/-- C1 amended: for a negative `material_index` the bound descriptor set
is `materials[0]`; for a non-negative one the code uses `material_index`
itself with no upper-bound check, so when `material_index ≥
materials.len` the lookup is out of range — there is no fallback to
`materials[0]` in that case. -/
theorem materialIndex_code_behavior {α : Type} (materials : List α) (mi : Int) :
    (mi < 0 → boundMaterial materials mi = materials.head?)
    ∧ (0 ≤ mi → materialIndexUsed mi = mi.toNat)
    ∧ ((materials.length : Int) ≤ mi → boundMaterial materials mi = none) := by
  refine ⟨fun h => ?_, fun h => ?_, fun h => ?_⟩
  · have hn : ¬ mi > -1 := by omega
    simp only [boundMaterial, materialIndexUsed, hn, if_false]
    cases materials <;> rfl
  · have hp : mi > -1 := by omega
    simp [materialIndexUsed, hp]
  · have hp : mi > -1 := by omega
    have hl : materials.length ≤ mi.toNat := by omega
    simp only [boundMaterial, materialIndexUsed, hp, if_true]
    exact List.get?_eq_none.mpr hl

theorem materialIndex_code_behavior_witness :
    boundMaterial ([7, 8] : List Nat) (-1) = some 7
    ∧ boundMaterial ([7, 8] : List Nat) 5 = none := by
  constructor
  · rw [(materialIndex_code_behavior ([7, 8] : List Nat) (-1)).1 (by decide)]
    rfl
  · exact (materialIndex_code_behavior ([7, 8] : List Nat) 5).2.2 (by decide)

/-! ## C3 — environment-map mip generation barriers -/

/-- C3: evaluating the recorded mip-generation stream at the program's
input (1024×1024 cube, full chain of 11 levels, 6 layers): the commands
for level L = 1 are a barrier on base mip level 11 (the mip COUNT — not
level 1 as the claim requires), the half-resolution blit from level 0 to
level 1 over all 6 layers, and another barrier on base mip level 11; no
barrier in the stream targets mip level 1 at all; and the final barrier
covers 0 mip levels (zero-initialized subresource range) instead of the
entire chain. -/
theorem mip_barrier_levels_wrong :
    textureMipLevels 1024 1024 0 = 11
    ∧ (genMipCommands 1024 1024 11 6).take 3 =
        [MipCmd.barrier 11 1 .undefined .transferDst,
         MipCmd.blit 0 1 1024 1024 512 512 6,
         MipCmd.barrier 11 1 .transferDst .transferSrc]
    ∧ MipCmd.barrier 1 1 Layout.undefined Layout.transferDst ∉ genMipCommands 1024 1024 11 6
    ∧ (genMipCommands 1024 1024 11 6).getLast? =
        some (MipCmd.barrier 0 0 .transferDst .shaderRead) := by
  refine ⟨by decide, by decide, by decide, by decide⟩

/-! ## C4 — descriptor-pool sizing -/

/-- C4: for any scene with `M` materials, `K` linear nodes owning a mesh
and `S` swapchain images, the scene descriptor pool of `Setup` has
`max_sets ≥ (2 + K + M)·S`, combined-image-sampler count
`≥ 5·M·S + 2`, and uniform-buffer count `≥ (4 + K)·S`. -/
theorem descriptor_pool_sizing (materials : List Material) (linearNodes : List Node)
    (S : Nat) :
    (sceneDescriptorPool materials linearNodes S).maxSets
      ≥ (2 + linearNodes.countP Node.hasMesh + materials.length) * S
    ∧ (sceneDescriptorPool materials linearNodes S).combinedImageSampler
      ≥ 5 * materials.length * S + 2
    ∧ (sceneDescriptorPool materials linearNodes S).uniformBuffer
      ≥ (4 + linearNodes.countP Node.hasMesh) * S := by
  simp only [sceneDescriptorPool, foldl_add_const, foldl_count_mesh, Nat.zero_add]
  refine ⟨?_, ?_, ?_⟩ <;> (apply le_of_eq; ring)

/-! ## C6 — node-traversal draw order -/

/-- C6: for any root list, the `draw_indexed` calls recorded by
`RecordCommandBuffer` are exactly, in order, one call
`(index_count, 1, first_index, 0, 0)` per primitive of the pre-order
primitive list; and restricted to material binds and draws, the stream
is exactly bind-then-draw for each pre-order primitive, the bind using
that primitive's material index (negative indices falling back to 0). -/
theorem node_traversal_preorder (roots : List Node) :
    (recordCommandBuffer roots).filterMap drawArgsOf
      = (preorderList roots).map (fun p => (p.index_count, 1, p.first_index, 0, 0))
    ∧ (recordCommandBuffer roots).filterMap bindOrDraw
      = (preorderList roots).flatMap primCmds := by
  constructor <;>
    simp [recordCommandBuffer, drawNodes_eq, List.filterMap_append, List.filterMap_cons,
      drawArgsOf, bindOrDraw, filterMap_drawArgs_prims, filterMap_bindOrDraw_prims]

/-! ## C7 — skybox path in the Record step -/

/-- C7 counterexample: on a concrete scene the recorded command stream
contains no skybox pipeline bind, no skybox descriptor-set bind and no
bind of model 1's buffers — only the scene path is recorded, with no
runtime selection. -/
theorem skybox_path_not_recorded :
    RecCmd.bindPipelineSkybox ∉ recordCommandBuffer sampleRoots
    ∧ RecCmd.bindSkyboxDescriptorSet ∉ recordCommandBuffer sampleRoots
    ∧ RecCmd.bindVertexBuffer 1 ∉ recordCommandBuffer sampleRoots
    ∧ RecCmd.bindPipelineScene ∈ recordCommandBuffer sampleRoots := by
  decide

/-- C7 amended: the Record step unconditionally records the scene path —
scene pipeline bind and model 0's vertex/index buffer binds, then the
per-primitive material binds and draws — and records no skybox pipeline,
skybox descriptor set, or model 1 buffer bindings; no runtime path
selection exists. -/
theorem record_scene_path_only (roots : List Node) :
    RecCmd.bindPipelineSkybox ∉ recordCommandBuffer roots
    ∧ RecCmd.bindSkyboxDescriptorSet ∉ recordCommandBuffer roots
    ∧ RecCmd.bindVertexBuffer 1 ∉ recordCommandBuffer roots
    ∧ recordCommandBuffer roots =
        [RecCmd.beginCmd, RecCmd.beginRenderPass, RecCmd.setViewport, RecCmd.setScissor,
         RecCmd.bindPipelineScene, RecCmd.bindVertexBuffer 0, RecCmd.bindIndexBuffer 0]
        ++ (preorderList roots).flatMap primCmds
        ++ [RecCmd.endRenderPass, RecCmd.endCmd] := by
  refine ⟨?_, ?_, ?_, by simp [recordCommandBuffer, drawNodes_eq]⟩ <;>
    simp [recordCommandBuffer, drawNodes_eq, List.mem_flatMap, primCmds]

/-! ## C8 — equirect-to-cube dispatch counts -/

/-- C8 counterexample: for side 100 (not a multiple of 32) the dispatch
records ⌊100/32⌋ = 3 groups per axis, not the rounded-up 4 the claim
requires. -/
theorem dispatch_truncates_at_100 :
    100 % 32 ≠ 0 ∧ dispatchGroups 100 = (3, 3, 6) ∧ (100 + 31) / 32 = 4 := by
  decide

/-- C8 amended: the dispatch uses truncating division `side / 32` in x
and y and 6 in z; when `side % 32 ≠ 0` it is exactly one group short of
the rounded-up count (it truncates rather than rounding up); with the
program's `envmap_size = 1024` the dispatch is `(32, 32, 6)`. -/
theorem dispatch_group_counts (side : Nat) :
    (dispatchGroups side).1 = side / 32
    ∧ (dispatchGroups side).2.1 = side / 32
    ∧ (dispatchGroups side).2.2 = 6
    ∧ (side % 32 ≠ 0 → (dispatchGroups side).1 + 1 = (side + 31) / 32)
    ∧ dispatchGroups envmapSize = (32, 32, 6) := by
  refine ⟨rfl, rfl, rfl, fun h => ?_, by decide⟩
  simp only [dispatchGroups]
  omega

theorem dispatch_group_counts_witness :
    100 % 32 ≠ 0 ∧ (dispatchGroups 100).1 + 1 = (100 + 31) / 32 :=
  ⟨by decide, (dispatch_group_counts 100).2.2.2.1 (by decide)⟩

/-! ## C9 — material binding 0 references frame slot 0 only -/

/-- C9: every descriptor write of `Setup` that targets a uniform buffer
references frame slot 0 — binding 0 of every material set reads
`m_ubo.uniformBuffers[0]` — although one uniform buffer exists per frame
slot (`uniformBufferCount = 2`); hence no material set ever references
the uniform buffer of a slot `j > 0`. -/
theorem material_binding0_slot0 (M : Nat) :
    (∀ w ∈ setupDescriptorWrites M, ∀ j, w.source = WriteSource.ubo j → j = 0)
    ∧ uniformBufferCount = 2 := by
  refine ⟨fun w hw j hj => ?_, rfl⟩
  simp only [setupDescriptorWrites, List.mem_flatMap] at hw
  obtain ⟨i, _, hw⟩ := hw
  simp only [materialDescriptorWrites, List.mem_cons, List.not_mem_nil, or_false] at hw
  rcases hw with h | h | h | h | h | h <;> subst h <;> simp_all

theorem material_binding0_slot0_witness :
    (⟨2, 0, WriteSource.ubo 0⟩ : DescWrite) ∈ setupDescriptorWrites 3
    ∧ (0 : Nat) = 0 :=
  ⟨by decide, (material_binding0_slot0 3).1 ⟨2, 0, WriteSource.ubo 0⟩ (by decide) 0 rfl⟩

/-! ## Frame-loop helper lemmas -/

theorem draw_normal_trace (s : GDState) (inp : DrawInput)
    (hf : s.framebufferResized = false)
    (ha : inp.acquireResult ≠ AcquireResult.outOfDate) :
    (draw s inp).2 =
      [Ev.waitFence s.currentFrame, Ev.acquire s.currentFrame,
       Ev.writeUniform s.currentFrame, Ev.resetFence s.currentFrame,
       Ev.resetCommandBuffer s.currentFrame, Ev.record s.currentFrame,
       Ev.submit s.currentFrame, Ev.present s.currentFrame]
      ++ (if presentTriggersCleanup inp.presentResult false
          then cleanupSwapchainEvents else []) := by
  simp [draw, hf, ha]

/-! ## C2 — present OUT_OF_DATE/SUBOPTIMAL handling -/

/-- C2: at the failing input — frame slot 0, resize flag clear, acquire
SUCCESS, present SUBOPTIMAL — the frame destroys the depth resources,
the framebuffers and the swapchain (`CleanUpSwapchain`), but the trace
contains neither a device-idle wait nor any recreation of the swapchain,
depth resources or framebuffers before the call returns; the next
Acquire would run against the destroyed swapchain. -/
theorem present_suboptimal_only_destroys :
    Ev.destroySwapchain ∈ (draw initialState ⟨.success, .suboptimal⟩).2
    ∧ Ev.destroyFramebuffers ∈ (draw initialState ⟨.success, .suboptimal⟩).2
    ∧ Ev.destroyDepthImage ∈ (draw initialState ⟨.success, .suboptimal⟩).2
    ∧ Ev.waitIdle ∉ (draw initialState ⟨.success, .suboptimal⟩).2
    ∧ Ev.createSwapchain ∉ (draw initialState ⟨.success, .suboptimal⟩).2
    ∧ Ev.createFramebuffers ∉ (draw initialState ⟨.success, .suboptimal⟩).2
    ∧ Ev.createDepthImage ∉ (draw initialState ⟨.success, .suboptimal⟩).2 := by
  decide

/-! ## C5 — fence wait before uniform write before submit -/

/-- C5: in every `Draw` trace, a uniform write to slot j's mapped memory
is preceded by the fence wait on slot j (whose return means the fence is
signaled), and the submit of slot j's command buffer comes after the
uniform write to slot j. -/
theorem uniform_write_ordering (s : GDState) (inp : DrawInput) (j : Nat) :
    (Ev.writeUniform j ∈ (draw s inp).2 →
      ∃ pre post, (draw s inp).2 = pre ++ Ev.writeUniform j :: post
        ∧ Ev.waitFence j ∈ pre)
    ∧ (Ev.submit j ∈ (draw s inp).2 →
      ∃ pre post, (draw s inp).2 = pre ++ Ev.submit j :: post
        ∧ Ev.writeUniform j ∈ pre) := by
  by_cases hf : s.framebufferResized
  · constructor <;> intro hmem <;>
      simp [draw, hf, recreateSwapchainEvents, cleanupSwapchainEvents] at hmem
  · have hf' : s.framebufferResized = false := by simpa using hf
    by_cases ha : inp.acquireResult = AcquireResult.outOfDate
    · constructor <;> intro hmem <;>
        simp [draw, hf', ha, recreateSwapchainEvents, cleanupSwapchainEvents] at hmem
    · constructor <;> intro hmem
      · have hj : j = s.currentFrame := by
          rw [draw_normal_trace s inp hf' ha] at hmem
          simp [cleanupSwapchainEvents] at hmem
          exact hmem
        subst hj
        refine ⟨[Ev.waitFence s.currentFrame, Ev.acquire s.currentFrame],
          [Ev.resetFence s.currentFrame, Ev.resetCommandBuffer s.currentFrame,
           Ev.record s.currentFrame, Ev.submit s.currentFrame,
           Ev.present s.currentFrame]
          ++ (if presentTriggersCleanup inp.presentResult false
              then cleanupSwapchainEvents else []), ?_, by simp⟩
        rw [draw_normal_trace s inp hf' ha]
        simp
      · have hj : j = s.currentFrame := by
          rw [draw_normal_trace s inp hf' ha] at hmem
          simp [cleanupSwapchainEvents] at hmem
          exact hmem
        subst hj
        refine ⟨[Ev.waitFence s.currentFrame, Ev.acquire s.currentFrame,
          Ev.writeUniform s.currentFrame, Ev.resetFence s.currentFrame,
          Ev.resetCommandBuffer s.currentFrame, Ev.record s.currentFrame],
          [Ev.present s.currentFrame]
          ++ (if presentTriggersCleanup inp.presentResult false
              then cleanupSwapchainEvents else []), ?_, by simp⟩
        rw [draw_normal_trace s inp hf' ha]
        simp

theorem uniform_write_ordering_witness :
    ∃ pre post,
      (draw initialState ⟨AcquireResult.success, PresentResult.success⟩).2
        = pre ++ Ev.writeUniform 0 :: post ∧ Ev.waitFence 0 ∈ pre :=
  (uniform_write_ordering initialState ⟨.success, .success⟩ 0).1 (by decide)

/-! ## C10 — early-return paths leave the fence signaled -/

/-- C10: on the early-return paths of `Draw` (resize flag set after the
fence wait, or acquire returning OUT_OF_DATE) the trace contains no
fence reset and the frame index and every slot's fence signaled-state
are unchanged — so the next call waits on the same, still-signaled
fence and returns immediately; and in every trace, a fence reset of
slot j is followed later in the same trace by the submit that uses that
fence. -/
theorem early_return_fence_preserved (s : GDState) (inp : DrawInput) :
    ((s.framebufferResized = true ∨ inp.acquireResult = AcquireResult.outOfDate) →
      (draw s inp).1.currentFrame = s.currentFrame
      ∧ (∀ j, (draw s inp).1.fenceSignaled j = s.fenceSignaled j)
      ∧ (∀ j, Ev.resetFence j ∉ (draw s inp).2))
    ∧ (∀ j, Ev.resetFence j ∈ (draw s inp).2 →
        ∃ pre post, (draw s inp).2 = pre ++ Ev.resetFence j :: post
          ∧ Ev.submit j ∈ post) := by
  constructor
  · intro h
    by_cases hf : s.framebufferResized
    · refine ⟨by simp [draw, hf], fun j => by simp [draw, hf], fun j => ?_⟩
      simp [draw, hf, recreateSwapchainEvents, cleanupSwapchainEvents]
    · have hf' : s.framebufferResized = false := by simpa using hf
      have ha : inp.acquireResult = AcquireResult.outOfDate := by
        rcases h with h | h
        · exact absurd h (by simp [hf'])
        · exact h
      refine ⟨by simp [draw, hf', ha], fun j => by simp [draw, hf', ha], fun j => ?_⟩
      simp [draw, hf', ha, recreateSwapchainEvents, cleanupSwapchainEvents]
  · intro j hmem
    by_cases hf : s.framebufferResized
    · simp [draw, hf, recreateSwapchainEvents, cleanupSwapchainEvents] at hmem
    · have hf' : s.framebufferResized = false := by simpa using hf
      by_cases ha : inp.acquireResult = AcquireResult.outOfDate
      · simp [draw, hf', ha, recreateSwapchainEvents, cleanupSwapchainEvents] at hmem
      · have hj : j = s.currentFrame := by
          rw [draw_normal_trace s inp hf' ha] at hmem
          simp [cleanupSwapchainEvents] at hmem
          exact hmem
        subst hj
        refine ⟨[Ev.waitFence s.currentFrame, Ev.acquire s.currentFrame,
          Ev.writeUniform s.currentFrame],
          [Ev.resetCommandBuffer s.currentFrame, Ev.record s.currentFrame,
           Ev.submit s.currentFrame, Ev.present s.currentFrame]
          ++ (if presentTriggersCleanup inp.presentResult false
              then cleanupSwapchainEvents else []), ?_, by simp⟩
        rw [draw_normal_trace s inp hf' ha]
        simp

theorem early_return_fence_preserved_witness :
    (draw resizedState ⟨AcquireResult.success, PresentResult.success⟩).1.currentFrame
        = resizedState.currentFrame
    ∧ (draw resizedState ⟨AcquireResult.success, PresentResult.success⟩).1.fenceSignaled 0
        = resizedState.fenceSignaled 0
    ∧ Ev.resetFence 0 ∉ (draw resizedState ⟨AcquireResult.success, PresentResult.success⟩).2 := by
  obtain ⟨h1, h2, h3⟩ :=
    (early_return_fence_preserved resizedState ⟨.success, .success⟩).1 (Or.inl rfl)
  exact ⟨h1, h2 0, h3 0⟩

end Diffuse
